import Mathlib

/-!
Verification of the payroll / leave-ledger engine of PayRollProRailway.

The Python source (`app.py`, `models.py`) is shallowly embedded over ℚ:
Python floats become rationals, `round(x, 2)` becomes `round2` (round to
nearest multiple of 1/100), `int(x)` becomes `pyInt` (truncation toward
zero), and database rows become Lean structures with the columns the
payroll engine reads or writes.  SQLAlchemy state is passed explicitly:
the payroll table and the leave-transaction table are lists, the employee
row is a record, and each operation returns the updated state.
-/

namespace PayrollPro

/-- Python `round(x, 2)`: round to the nearest multiple of `1/100`
(`round` on ℚ; tie behaviour never matters in the statements below). -/
def round2 (q : ℚ) : ℚ := ((round (q * 100) : ℤ) : ℚ) / 100

/-- Python `int(x)`: truncation toward zero. -/
def pyInt (q : ℚ) : ℤ := if 0 ≤ q then ⌊q⌋ else ⌈q⌉

/-- The rounding step moves a value by at most half a cent. -/
theorem abs_round2_sub (q : ℚ) : |round2 q - q| ≤ 1 / 200 := by
  have h : |q * 100 - ((round (q * 100) : ℤ) : ℚ)| ≤ 1 / 2 := abs_sub_round (q * 100)
  have h2 : round2 q - q = -((q * 100 - ((round (q * 100) : ℤ) : ℚ)) / 100) := by
    unfold round2; ring
  rw [h2, abs_neg, abs_div, abs_of_pos (show (0:ℚ) < 100 by norm_num)]
  linarith

/-- Rounding a whole number of cents is the identity. -/
theorem round2_intCast_div (k : ℤ) : round2 ((k : ℚ) / 100) = (k : ℚ) / 100 := by
  unfold round2
  have : ((k : ℚ) / 100) * 100 = (k : ℚ) := by ring
  rw [this, round_intCast]

/-- `round2` always produces a whole number of cents. -/
theorem round2_exists_int (q : ℚ) : ∃ k : ℤ, round2 q = (k : ℚ) / 100 :=
  ⟨round (q * 100), rfl⟩

/-- Differences of already-rounded amounts are not moved by a further
`round2` (used for the `net = gross − deductions` identities). -/
theorem round2_sub_stable (a b : ℚ) :
    round2 (round2 a - round2 b) = round2 a - round2 b := by
  obtain ⟨m, hm⟩ := round2_exists_int a
  obtain ⟨n, hn⟩ := round2_exists_int b
  rw [hm, hn]
  have h : (m : ℚ) / 100 - (n : ℚ) / 100 = ((m - n : ℤ) : ℚ) / 100 := by
    push_cast; ring
  rw [h, round2_intCast_div]

/-! ## Salary components (`calculate_salary_components`, app.py 1422–1479) -/

/-- The dict built by `calculate_salary_components` (and later mutated by
`process_individual_payroll`): every earning line, every deduction line,
and the three totals. -/
structure SalaryComponents where
  basic : ℚ
  hra : ℚ
  conveyance_allowance : ℚ
  medical_allowance : ℚ
  overtime_amount : ℚ
  expenses : ℚ
  bonus : ℚ
  leave_balance_amount : ℚ
  special_allowance : ℚ
  pf_employee : ℚ
  pf_employer : ℚ
  vpf : ℚ
  pt : ℚ
  charity : ℚ
  misc_deduction : ℚ
  additional_deduction : ℚ
  gross_salary : ℚ
  total_deductions : ℚ
  net_salary : ℚ
deriving DecidableEq

/-- `calculate_salary_components(ctc_monthly, pf_opted, additional_deduction)`
(app.py 1422–1479), line by line. -/
def calculate_salary_components (ctc_monthly : ℚ) (pf_opted : Bool)
    (additional_deduction : ℚ) : SalaryComponents :=
  let basic := round2 (ctc_monthly * (50 / 100))
  let hra := round2 (basic * (20 / 100))
  let conveyance_allowance := round2 (ctc_monthly * (5 / 100))
  let medical_allowance := round2 (ctc_monthly * (5 / 100))
  let overtime_amount : ℚ := 0
  let expenses : ℚ := 0
  let bonus : ℚ := 0
  let leave_balance_amount : ℚ := 0
  let fixed_components := basic + hra + conveyance_allowance + medical_allowance
  let remaining := ctc_monthly - fixed_components
  let special_allowance := round2 remaining
  let pf_amount := min (basic * (12 / 100)) 1800
  let pf_employee := if pf_opted then round2 pf_amount else 0
  let pf_employer := if pf_opted then round2 pf_amount else 0
  let vpf : ℚ := 0
  let pt : ℚ := 0
  let charity : ℚ := 0
  let misc_deduction : ℚ := 0
  let gross_salary := round2 (basic + hra + special_allowance +
    conveyance_allowance + medical_allowance + overtime_amount + expenses +
    bonus + leave_balance_amount)
  let total_deductions := round2 (pf_employee + vpf + pt + charity +
    misc_deduction + additional_deduction)
  let net_salary := round2 (gross_salary - total_deductions)
  { basic := basic, hra := hra, conveyance_allowance := conveyance_allowance,
    medical_allowance := medical_allowance, overtime_amount := overtime_amount,
    expenses := expenses, bonus := bonus,
    leave_balance_amount := leave_balance_amount,
    special_allowance := special_allowance, pf_employee := pf_employee,
    pf_employer := pf_employer, vpf := vpf, pt := pt, charity := charity,
    misc_deduction := misc_deduction,
    additional_deduction := additional_deduction, gross_salary := gross_salary,
    total_deductions := total_deductions, net_salary := net_salary }

/-! ## Data model (`models.py`) -/

/-- The `Employee` row, restricted to the columns the payroll engine reads
or writes (models.py 27–49). -/
structure EmployeeRec where
  emp_id : String
  ctc_monthly : ℚ
  ctc_annual : ℚ
  pf_opted : Bool
  leave_balance : ℚ
deriving DecidableEq

/-- The `LeaveTransaction` row (models.py 102–113).  `month` is a
`String(20)` column holding a month name such as `"January"`. -/
structure LeaveTxn where
  emp_id : String
  month : String
  year : ℤ
  leaves_allocated : ℚ
  leaves_used : ℚ
  balance_before : ℚ
  balance_after : ℚ
deriving DecidableEq

/-! ## Leave ledger (`calculate_leave_balance`, app.py 1482–1528) -/

/-- Byte-wise (ASCII) lexicographic `<` on strings: how a SQL
`VARCHAR` column compares under the default binary collation, hence how
`ORDER BY month DESC` orders the stored month names. -/
def charListLt : List Char → List Char → Bool
  | [], [] => false
  | [], _ :: _ => true
  | _ :: _, [] => false
  | a :: as, b :: bs => if a = b then charListLt as bs else decide (a.toNat < b.toNat)

/-- String `<` used by the database when ordering the `month` column. -/
def strLtB (a b : String) : Bool := charListLt a.data b.data

/-- `ORDER BY year DESC, month DESC` as actually executed: `a` sorts
strictly before `b` in that DESC order (so `a` is picked first) iff `a`
has the larger `(year, month-as-string)` key. -/
def lexLater (a b : LeaveTxn) : Bool :=
  (b.year < a.year) || (a.year == b.year && strLtB b.month a.month)

/-- Calendar position of a stored month name (1–12; 0 for anything else). -/
def monthIndex : String → ℤ
  | "January" => 1
  | "February" => 2
  | "March" => 3
  | "April" => 4
  | "May" => 5
  | "June" => 6
  | "July" => 7
  | "August" => 8
  | "September" => 9
  | "October" => 10
  | "November" => 11
  | "December" => 12
  | _ => 0

/-- Modelled from the spec: chronological order of pay periods, by year
then calendar month — the order the spec means by "most recent". -/
def chronoLater (a b : LeaveTxn) : Bool :=
  (b.year < a.year) || (a.year == b.year && monthIndex b.month < monthIndex a.month)

/-- First row of the list under a strict "later" comparison: the `.first()`
of the ordered query (among rows with equal keys the earlier-inserted row
is kept; the database leaves that tie unspecified). -/
def latestBy (later : LeaveTxn → LeaveTxn → Bool) : List LeaveTxn → Option LeaveTxn
  | [] => none
  | t :: ts =>
    match latestBy later ts with
    | none => some t
    | some u => if later u t then some u else some t

/-- The `prev_transaction` query of app.py 1490–1492: the employee's
transactions ordered by `year DESC, month DESC`, first row. -/
def prev_transaction (emp_id : String) (txns : List LeaveTxn) : Option LeaveTxn :=
  latestBy lexLater (txns.filter fun t => t.emp_id == emp_id)

/-- Monthly leave allocation (app.py 1487). -/
def monthly_allocation : ℚ := 3 / 2

/-- The balance a settlement starts from (app.py 1494–1498, before the
allocation is added): the previous transaction's `balance_after` when one
exists, the employee's stored `leave_balance` otherwise. -/
def starting_balance (e : EmployeeRec) (txns : List LeaveTxn) : ℚ :=
  match prev_transaction e.emp_id txns with
  | some t => t.balance_after
  | none => e.leave_balance

/-- The dict returned by `calculate_leave_balance` (app.py 1522–1528). -/
structure LeaveInfo where
  leave_balance_used : ℚ
  loss_of_pay_days : ℚ
  remaining_balance : ℚ
  paid_days : ℚ
  present_days : ℚ
deriving DecidableEq

/-- Everything `calculate_leave_balance` produces: the returned dict, the
`LeaveTransaction` row it adds to the session, and the employee row with
its updated `leave_balance`. -/
structure LeaveResult where
  info : LeaveInfo
  txn : LeaveTxn
  employee : EmployeeRec
deriving DecidableEq

/-- `calculate_leave_balance(employee, leaves_taken, month, year)`
(app.py 1482–1528), line by line; the session is passed in as the list of
existing `LeaveTransaction` rows. -/
def calculate_leave_balance (employee : EmployeeRec) (txns : List LeaveTxn)
    (leaves_taken : ℚ) (month : String) (year : ℤ) : LeaveResult :=
  let current_balance :=
    match prev_transaction employee.emp_id txns with
    | some t => t.balance_after + monthly_allocation
    | none => employee.leave_balance + monthly_allocation
  let leave_balance_used := min leaves_taken current_balance
  let loss_of_pay_days := max 0 (leaves_taken - current_balance)
  let remaining_balance := current_balance - leave_balance_used
  let txn : LeaveTxn :=
    { emp_id := employee.emp_id, month := month, year := year,
      leaves_allocated := monthly_allocation, leaves_used := leave_balance_used,
      balance_before := current_balance - monthly_allocation,
      balance_after := remaining_balance }
  { info :=
      { leave_balance_used := leave_balance_used,
        loss_of_pay_days := loss_of_pay_days,
        remaining_balance := remaining_balance,
        paid_days := 30 - loss_of_pay_days,
        present_days := 30 - leaves_taken },
    txn := txn,
    employee := { employee with leave_balance := remaining_balance } }

/-! ## Payroll processing (`process_individual_payroll`, app.py 2565–2709) -/

/-- The `Payroll` row (models.py 52–99), restricted to the columns the
engine computes.  `total_days`, `present_days` and `paid_days` are
`Integer` columns; `leaves_taken` and `loss_of_pay_days` are `Float`. -/
structure PayrollRecord where
  emp_id : String
  month : String
  year : ℤ
  total_days : ℤ
  present_days : ℤ
  leaves_taken : ℚ
  paid_days : ℤ
  loss_of_pay_days : ℚ
  leave_balance_used : ℚ
  basic_salary : ℚ
  hra : ℚ
  special_allowance : ℚ
  conveyance_allowance : ℚ
  medical_allowance : ℚ
  overtime_amount : ℚ
  expenses : ℚ
  bonus : ℚ
  leave_balance_amount : ℚ
  pf_employee : ℚ
  pf_employer : ℚ
  vpf : ℚ
  pt : ℚ
  charity : ℚ
  misc_deduction : ℚ
  additional_deduction : ℚ
  gross_salary : ℚ
  total_deductions : ℚ
  net_salary : ℚ
  hike_amount : ℚ
deriving DecidableEq

/-- The form fields `process_individual_payroll` reads (app.py 2571–2583). -/
structure PayrollInput where
  leaves_taken : ℚ
  month : String
  year : ℤ
  pf_opted : Bool
  hike_amount : ℚ
  deduction_amount : ℚ
  overtime_amount : ℚ
  expenses : ℚ
  bonus : ℚ
deriving DecidableEq

/-- Rows `p` and `r` have the same `(emp_id, month, year)` natural key. -/
def sameKey (p r : PayrollRecord) : Bool :=
  p.emp_id == r.emp_id && p.month == r.month && p.year == r.year

/-- The upsert of app.py 2622–2697: the first row matching the key has all
its fields overwritten; if none matches, the new row is appended. -/
def upsertPayroll : List PayrollRecord → PayrollRecord → List PayrollRecord
  | [], r => [r]
  | p :: ps, r => if sameKey p r then r :: ps else p :: upsertPayroll ps r

/-- The loss-of-pay adjustment of app.py 2601–2604: each of the five fixed
components is scaled by `(1 − loss_fraction)` and re-rounded independently;
nothing else in the dict is touched. -/
def scaleForLossOfPay (sc : SalaryComponents) (loss_fraction : ℚ) :
    SalaryComponents :=
  { sc with
    basic := round2 (sc.basic * (1 - loss_fraction)),
    hra := round2 (sc.hra * (1 - loss_fraction)),
    special_allowance := round2 (sc.special_allowance * (1 - loss_fraction)),
    conveyance_allowance := round2 (sc.conveyance_allowance * (1 - loss_fraction)),
    medical_allowance := round2 (sc.medical_allowance * (1 - loss_fraction)) }

/-- What a single `process_individual_payroll` request leaves behind: the
employee row (balance updated by settlement), the leave ledger (one row
appended), the payroll table (upserted), and the computed row itself. -/
structure ProcessResult where
  employee : EmployeeRec
  txns : List LeaveTxn
  payrolls : List PayrollRecord
  record : PayrollRecord
deriving DecidableEq

/-- `process_individual_payroll` (app.py 2565–2709), the computation after
the employee row has been fetched, line by line: one-off hike added to the
period's CTC input, base components, leave settlement, loss-of-pay
scaling, variable components, totals recomputed, row upserted. -/
def process_individual_payroll (employee : EmployeeRec)
    (txns : List LeaveTxn) (payrolls : List PayrollRecord)
    (inp : PayrollInput) : ProcessResult :=
  let ctc_monthly := employee.ctc_monthly + inp.hike_amount
  let sc0 := calculate_salary_components ctc_monthly inp.pf_opted inp.deduction_amount
  let lr := calculate_leave_balance employee txns inp.leaves_taken inp.month inp.year
  let sc1 :=
    if 0 < lr.info.loss_of_pay_days then
      scaleForLossOfPay sc0 (lr.info.loss_of_pay_days / 30)
    else sc0
  let sc2 :=
    { sc1 with
      overtime_amount := inp.overtime_amount,
      expenses := inp.expenses,
      bonus := inp.bonus,
      leave_balance_amount := lr.info.remaining_balance * 100 }
  let gross_salary := round2 (sc2.basic + sc2.hra + sc2.special_allowance +
    sc2.conveyance_allowance + sc2.medical_allowance + sc2.overtime_amount +
    sc2.expenses + sc2.bonus + sc2.leave_balance_amount)
  let net_salary := round2 (gross_salary - sc2.total_deductions)
  let r : PayrollRecord :=
    { emp_id := employee.emp_id, month := inp.month, year := inp.year,
      total_days := 30,
      present_days := pyInt lr.info.present_days,
      leaves_taken := inp.leaves_taken,
      paid_days := pyInt lr.info.paid_days,
      loss_of_pay_days := lr.info.loss_of_pay_days,
      leave_balance_used := lr.info.leave_balance_used,
      basic_salary := sc2.basic, hra := sc2.hra,
      special_allowance := sc2.special_allowance,
      conveyance_allowance := sc2.conveyance_allowance,
      medical_allowance := sc2.medical_allowance,
      overtime_amount := sc2.overtime_amount, expenses := sc2.expenses,
      bonus := sc2.bonus, leave_balance_amount := sc2.leave_balance_amount,
      pf_employee := sc2.pf_employee, pf_employer := sc2.pf_employer,
      vpf := sc2.vpf, pt := sc2.pt, charity := sc2.charity,
      misc_deduction := sc2.misc_deduction,
      additional_deduction := sc2.additional_deduction,
      gross_salary := gross_salary,
      total_deductions := sc2.total_deductions,
      net_salary := net_salary,
      hike_amount := inp.hike_amount }
  { employee := lr.employee,
    txns := txns ++ [lr.txn],
    payrolls := upsertPayroll payrolls r,
    record := r }

/-- `apply_hike` (app.py 2837–2866): adds the hike to the stored monthly
CTC and recomputes the annual CTC from the new monthly value. -/
def apply_hike (employee : EmployeeRec) (hike_amount : ℚ) : EmployeeRec :=
  let m := employee.ctc_monthly + hike_amount
  { employee with ctc_monthly := m, ctc_annual := m * 12 }

/-- A sequence of processing runs for one employee against the shared
store (each run re-reads the employee row left by the previous one). -/
def runAll (employee : EmployeeRec) (txns : List LeaveTxn)
    (payrolls : List PayrollRecord) :
    List PayrollInput → EmployeeRec × List LeaveTxn × List PayrollRecord
  | [] => (employee, txns, payrolls)
  | inp :: rest =>
    let res := process_individual_payroll employee txns payrolls inp
    runAll res.employee res.txns res.payrolls rest

/-! ## Theorems -/

/-- C5: for all `ctc_monthly > 0` with no loss of pay, the split is
basic = 50% of CTC, HRA = 20% of basic, conveyance = 5% of CTC,
medical = 5% of CTC (each rounded to 2 decimals), special allowance is
the remainder `ctc − basic − hra − conveyance − medical`, and the five
components add back to `ctc_monthly` within rounding epsilon. -/
theorem C5_salary_split (ctc_monthly : ℚ) (pf_opted : Bool)
    (additional_deduction : ℚ) (_h : 0 < ctc_monthly) :
    (calculate_salary_components ctc_monthly pf_opted additional_deduction).basic
      = round2 (ctc_monthly * (50 / 100)) ∧
    (calculate_salary_components ctc_monthly pf_opted additional_deduction).hra
      = round2 ((calculate_salary_components ctc_monthly pf_opted additional_deduction).basic * (20 / 100)) ∧
    (calculate_salary_components ctc_monthly pf_opted additional_deduction).conveyance_allowance
      = round2 (ctc_monthly * (5 / 100)) ∧
    (calculate_salary_components ctc_monthly pf_opted additional_deduction).medical_allowance
      = round2 (ctc_monthly * (5 / 100)) ∧
    (calculate_salary_components ctc_monthly pf_opted additional_deduction).special_allowance
      = round2 (ctc_monthly -
          ((calculate_salary_components ctc_monthly pf_opted additional_deduction).basic +
           (calculate_salary_components ctc_monthly pf_opted additional_deduction).hra +
           (calculate_salary_components ctc_monthly pf_opted additional_deduction).conveyance_allowance +
           (calculate_salary_components ctc_monthly pf_opted additional_deduction).medical_allowance)) ∧
    |(calculate_salary_components ctc_monthly pf_opted additional_deduction).basic +
     (calculate_salary_components ctc_monthly pf_opted additional_deduction).hra +
     (calculate_salary_components ctc_monthly pf_opted additional_deduction).conveyance_allowance +
     (calculate_salary_components ctc_monthly pf_opted additional_deduction).medical_allowance +
     (calculate_salary_components ctc_monthly pf_opted additional_deduction).special_allowance -
     ctc_monthly| ≤ 1 / 200 := by
  refine ⟨rfl, rfl, rfl, rfl, rfl, ?_⟩
  set b := round2 (ctc_monthly * (50 / 100)) with hb
  set hr := round2 (b * (20 / 100)) with hhra
  set cv := round2 (ctc_monthly * (5 / 100)) with hcv
  have hkey := abs_round2_sub (ctc_monthly - (b + hr + cv + cv))
  have h1 : (calculate_salary_components ctc_monthly pf_opted additional_deduction).basic +
      (calculate_salary_components ctc_monthly pf_opted additional_deduction).hra +
      (calculate_salary_components ctc_monthly pf_opted additional_deduction).conveyance_allowance +
      (calculate_salary_components ctc_monthly pf_opted additional_deduction).medical_allowance +
      (calculate_salary_components ctc_monthly pf_opted additional_deduction).special_allowance -
      ctc_monthly
      = round2 (ctc_monthly - (b + hr + cv + cv)) - (ctc_monthly - (b + hr + cv + cv)) := by
    show b + hr + cv + cv + round2 (ctc_monthly - (b + hr + cv + cv)) - ctc_monthly = _
    ring
  rw [h1]
  exact hkey

/-- C5 witness at the spec's scenario `ctc_monthly = 50000`. -/
theorem C5_salary_split_witness :
    (0 : ℚ) < 50000 ∧
    ((calculate_salary_components 50000 true 0).basic = round2 (50000 * (50 / 100)) ∧
     (calculate_salary_components 50000 true 0).hra
       = round2 ((calculate_salary_components 50000 true 0).basic * (20 / 100)) ∧
     (calculate_salary_components 50000 true 0).conveyance_allowance = round2 (50000 * (5 / 100)) ∧
     (calculate_salary_components 50000 true 0).medical_allowance = round2 (50000 * (5 / 100)) ∧
     (calculate_salary_components 50000 true 0).special_allowance
       = round2 (50000 -
           ((calculate_salary_components 50000 true 0).basic +
            (calculate_salary_components 50000 true 0).hra +
            (calculate_salary_components 50000 true 0).conveyance_allowance +
            (calculate_salary_components 50000 true 0).medical_allowance)) ∧
     |(calculate_salary_components 50000 true 0).basic +
      (calculate_salary_components 50000 true 0).hra +
      (calculate_salary_components 50000 true 0).conveyance_allowance +
      (calculate_salary_components 50000 true 0).medical_allowance +
      (calculate_salary_components 50000 true 0).special_allowance - 50000| ≤ 1 / 200) ∧
    (calculate_salary_components 50000 true 0).basic = 25000 ∧
    (calculate_salary_components 50000 true 0).hra = 5000 ∧
    (calculate_salary_components 50000 true 0).conveyance_allowance = 2500 ∧
    (calculate_salary_components 50000 true 0).medical_allowance = 2500 ∧
    (calculate_salary_components 50000 true 0).special_allowance = 15000 :=
  ⟨by norm_num, C5_salary_split 50000 true 0 (by norm_num),
   by norm_num [calculate_salary_components, round2],
   by norm_num [calculate_salary_components, round2],
   by norm_num [calculate_salary_components, round2],
   by norm_num [calculate_salary_components, round2],
   by norm_num [calculate_salary_components, round2]⟩

/-- C6: with `pf_opted` the employee PF is 12% of basic capped at 1800
(rounded to 2 decimals, hence within half a cent of `min (basic·12%) 1800`),
the employer PF mirrors it; without `pf_opted` both are 0; and at the
spec's scenario CTC = 50000 the cap binds and the PF is exactly 1800. -/
theorem C6_pf_amount (ctc_monthly additional_deduction : ℚ) :
    (calculate_salary_components ctc_monthly true additional_deduction).pf_employee
      = round2 (min ((calculate_salary_components ctc_monthly true additional_deduction).basic * (12 / 100)) 1800) ∧
    |(calculate_salary_components ctc_monthly true additional_deduction).pf_employee
      - min ((calculate_salary_components ctc_monthly true additional_deduction).basic * (12 / 100)) 1800| ≤ 1 / 200 ∧
    (calculate_salary_components ctc_monthly true additional_deduction).pf_employer
      = (calculate_salary_components ctc_monthly true additional_deduction).pf_employee ∧
    (calculate_salary_components ctc_monthly false additional_deduction).pf_employee = 0 ∧
    (calculate_salary_components ctc_monthly false additional_deduction).pf_employer = 0 ∧
    (calculate_salary_components 50000 true additional_deduction).pf_employee = 1800 := by
  refine ⟨rfl, ?_, rfl, rfl, rfl, ?_⟩
  · exact abs_round2_sub (min ((calculate_salary_components ctc_monthly true additional_deduction).basic * (12 / 100)) 1800)
  · norm_num [calculate_salary_components, round2]

/-- Amounts that are each the result of a `round2` have an exact
difference: the final rounding in `net = round2 (gross − deductions)` is
the identity. -/
theorem round2_sub_stable2 (a b a0 b0 : ℚ) (ha : a = round2 a0)
    (hb : b = round2 b0) : round2 (a - b) = a - b := by
  rw [ha, hb, round2_sub_stable]

/-- The record written by `process_individual_payroll` carries a gross
that is the rounded sum of its own nine earning columns. -/
theorem pip_gross_eq (e : EmployeeRec) (txns : List LeaveTxn)
    (payrolls : List PayrollRecord) (inp : PayrollInput) :
    (process_individual_payroll e txns payrolls inp).record.gross_salary
      = round2 ((process_individual_payroll e txns payrolls inp).record.basic_salary +
        (process_individual_payroll e txns payrolls inp).record.hra +
        (process_individual_payroll e txns payrolls inp).record.special_allowance +
        (process_individual_payroll e txns payrolls inp).record.conveyance_allowance +
        (process_individual_payroll e txns payrolls inp).record.medical_allowance +
        (process_individual_payroll e txns payrolls inp).record.overtime_amount +
        (process_individual_payroll e txns payrolls inp).record.expenses +
        (process_individual_payroll e txns payrolls inp).record.bonus +
        (process_individual_payroll e txns payrolls inp).record.leave_balance_amount) := rfl

/-- The record written by `process_individual_payroll` carries a total
deduction that is the rounded sum of its own six deduction columns (the
loss-of-pay scaling never touches a deduction line). -/
theorem pip_total_eq (e : EmployeeRec) (txns : List LeaveTxn)
    (payrolls : List PayrollRecord) (inp : PayrollInput) :
    (process_individual_payroll e txns payrolls inp).record.total_deductions
      = round2 ((process_individual_payroll e txns payrolls inp).record.pf_employee +
        (process_individual_payroll e txns payrolls inp).record.vpf +
        (process_individual_payroll e txns payrolls inp).record.pt +
        (process_individual_payroll e txns payrolls inp).record.charity +
        (process_individual_payroll e txns payrolls inp).record.misc_deduction +
        (process_individual_payroll e txns payrolls inp).record.additional_deduction) := by
  by_cases h : 0 < (calculate_leave_balance e txns inp.leaves_taken inp.month inp.year).info.loss_of_pay_days <;>
    simp [process_individual_payroll, scaleForLossOfPay, calculate_salary_components, h]

/-- C7: for the base calculator and for the record written by
`process_individual_payroll` alike, the gross is the (rounded) sum of the
nine earning components, the total deduction is the (rounded) sum of the
six deduction lines, and `net = gross − total_deductions` holds exactly. -/
theorem C7_totals (ctc_monthly : ℚ) (pf_opted : Bool)
    (additional_deduction : ℚ) (e : EmployeeRec) (txns : List LeaveTxn)
    (payrolls : List PayrollRecord) (inp : PayrollInput) :
    let c := calculate_salary_components ctc_monthly pf_opted additional_deduction
    let r := (process_individual_payroll e txns payrolls inp).record
    c.gross_salary = round2 (c.basic + c.hra + c.special_allowance +
      c.conveyance_allowance + c.medical_allowance + c.overtime_amount +
      c.expenses + c.bonus + c.leave_balance_amount) ∧
    c.total_deductions = round2 (c.pf_employee + c.vpf + c.pt + c.charity +
      c.misc_deduction + c.additional_deduction) ∧
    c.net_salary = c.gross_salary - c.total_deductions ∧
    r.gross_salary = round2 (r.basic_salary + r.hra + r.special_allowance +
      r.conveyance_allowance + r.medical_allowance + r.overtime_amount +
      r.expenses + r.bonus + r.leave_balance_amount) ∧
    r.total_deductions = round2 (r.pf_employee + r.vpf + r.pt + r.charity +
      r.misc_deduction + r.additional_deduction) ∧
    r.net_salary = r.gross_salary - r.total_deductions := by
  intro c r
  refine ⟨rfl, rfl, ?_, pip_gross_eq e txns payrolls inp, pip_total_eq e txns payrolls inp, ?_⟩
  · exact round2_sub_stable2 _ _ _ _ rfl rfl
  · exact round2_sub_stable2 _ _ _ _ (pip_gross_eq e txns payrolls inp)
      (pip_total_eq e txns payrolls inp)

/-- C2: leave settlement computes `available = starting balance + 1.5`,
`used = min(leaves_taken, available)`,
`loss_of_pay_days = max(0, leaves_taken − available)`,
`remaining = available − used`, `paid_days = 30 − loss_of_pay_days`,
`present_days = 30 − leaves_taken`; in particular a starting balance of 0
with 2 leaves taken gives used = 1.5, loss of pay = 0.5, remaining = 0. -/
theorem C2_leave_settlement (e : EmployeeRec) (txns : List LeaveTxn)
    (leaves_taken : ℚ) (month : String) (year : ℤ) (_h : 0 ≤ leaves_taken) :
    (calculate_leave_balance e txns leaves_taken month year).info.leave_balance_used
      = min leaves_taken (starting_balance e txns + monthly_allocation) ∧
    (calculate_leave_balance e txns leaves_taken month year).info.loss_of_pay_days
      = max 0 (leaves_taken - (starting_balance e txns + monthly_allocation)) ∧
    (calculate_leave_balance e txns leaves_taken month year).info.remaining_balance
      = (starting_balance e txns + monthly_allocation)
        - (calculate_leave_balance e txns leaves_taken month year).info.leave_balance_used ∧
    (calculate_leave_balance e txns leaves_taken month year).info.paid_days
      = 30 - (calculate_leave_balance e txns leaves_taken month year).info.loss_of_pay_days ∧
    (calculate_leave_balance e txns leaves_taken month year).info.present_days
      = 30 - leaves_taken ∧
    (calculate_leave_balance
        { emp_id := "EMP1", ctc_monthly := 50000, ctc_annual := 600000,
          pf_opted := true, leave_balance := 0 } [] 2 "January" 2024).info.leave_balance_used = 3 / 2 ∧
    (calculate_leave_balance
        { emp_id := "EMP1", ctc_monthly := 50000, ctc_annual := 600000,
          pf_opted := true, leave_balance := 0 } [] 2 "January" 2024).info.loss_of_pay_days = 1 / 2 ∧
    (calculate_leave_balance
        { emp_id := "EMP1", ctc_monthly := 50000, ctc_annual := 600000,
          pf_opted := true, leave_balance := 0 } [] 2 "January" 2024).info.remaining_balance = 0 := by
  refine ⟨?_, ?_, ?_, rfl, rfl, ?_, ?_, ?_⟩
  · cases hp : prev_transaction e.emp_id txns <;>
      simp [calculate_leave_balance, starting_balance, hp]
  · cases hp : prev_transaction e.emp_id txns <;>
      simp [calculate_leave_balance, starting_balance, hp]
  · cases hp : prev_transaction e.emp_id txns <;>
      simp [calculate_leave_balance, starting_balance, hp]
  · norm_num [calculate_leave_balance, starting_balance, prev_transaction,
      latestBy, monthly_allocation]
  · norm_num [calculate_leave_balance, starting_balance, prev_transaction,
      latestBy, monthly_allocation]
  · norm_num [calculate_leave_balance, starting_balance, prev_transaction,
      latestBy, monthly_allocation]

/-- C2 witness at the spec's own example: no prior transactions, stored
balance 0, `leaves_taken = 2`. -/
theorem C2_leave_settlement_witness :
    (0 : ℚ) ≤ 2 ∧
    ((calculate_leave_balance
        { emp_id := "EMP1", ctc_monthly := 50000, ctc_annual := 600000,
          pf_opted := true, leave_balance := 0 } [] 2 "January" 2024).info.leave_balance_used
      = min 2 (starting_balance
          { emp_id := "EMP1", ctc_monthly := 50000, ctc_annual := 600000,
            pf_opted := true, leave_balance := 0 } [] + monthly_allocation) ∧
     (calculate_leave_balance
        { emp_id := "EMP1", ctc_monthly := 50000, ctc_annual := 600000,
          pf_opted := true, leave_balance := 0 } [] 2 "January" 2024).info.loss_of_pay_days
      = max 0 (2 - (starting_balance
          { emp_id := "EMP1", ctc_monthly := 50000, ctc_annual := 600000,
            pf_opted := true, leave_balance := 0 } [] + monthly_allocation)) ∧
     (calculate_leave_balance
        { emp_id := "EMP1", ctc_monthly := 50000, ctc_annual := 600000,
          pf_opted := true, leave_balance := 0 } [] 2 "January" 2024).info.remaining_balance
      = (starting_balance
          { emp_id := "EMP1", ctc_monthly := 50000, ctc_annual := 600000,
            pf_opted := true, leave_balance := 0 } [] + monthly_allocation)
        - (calculate_leave_balance
            { emp_id := "EMP1", ctc_monthly := 50000, ctc_annual := 600000,
              pf_opted := true, leave_balance := 0 } [] 2 "January" 2024).info.leave_balance_used ∧
     (calculate_leave_balance
        { emp_id := "EMP1", ctc_monthly := 50000, ctc_annual := 600000,
          pf_opted := true, leave_balance := 0 } [] 2 "January" 2024).info.paid_days
      = 30 - (calculate_leave_balance
          { emp_id := "EMP1", ctc_monthly := 50000, ctc_annual := 600000,
            pf_opted := true, leave_balance := 0 } [] 2 "January" 2024).info.loss_of_pay_days ∧
     (calculate_leave_balance
        { emp_id := "EMP1", ctc_monthly := 50000, ctc_annual := 600000,
          pf_opted := true, leave_balance := 0 } [] 2 "January" 2024).info.present_days
      = 30 - 2 ∧
     (calculate_leave_balance
        { emp_id := "EMP1", ctc_monthly := 50000, ctc_annual := 600000,
          pf_opted := true, leave_balance := 0 } [] 2 "January" 2024).info.leave_balance_used = 3 / 2 ∧
     (calculate_leave_balance
        { emp_id := "EMP1", ctc_monthly := 50000, ctc_annual := 600000,
          pf_opted := true, leave_balance := 0 } [] 2 "January" 2024).info.loss_of_pay_days = 1 / 2 ∧
     (calculate_leave_balance
        { emp_id := "EMP1", ctc_monthly := 50000, ctc_annual := 600000,
          pf_opted := true, leave_balance := 0 } [] 2 "January" 2024).info.remaining_balance = 0) :=
  ⟨by norm_num,
   C2_leave_settlement
     { emp_id := "EMP1", ctc_monthly := 50000, ctc_annual := 600000,
       pf_opted := true, leave_balance := 0 } [] 2 "January" 2024 (by norm_num)⟩

/-- C10: every `LeaveTransaction` written by settlement satisfies
`balance_after = balance_before + leaves_allocated − leaves_used` with
`leaves_allocated = 1.5`, and the employee's stored balance after
settlement equals the new transaction's `balance_after`. -/
theorem C10_ledger_row_invariant (e : EmployeeRec) (txns : List LeaveTxn)
    (leaves_taken : ℚ) (month : String) (year : ℤ) :
    (calculate_leave_balance e txns leaves_taken month year).txn.balance_after
      = (calculate_leave_balance e txns leaves_taken month year).txn.balance_before
        + (calculate_leave_balance e txns leaves_taken month year).txn.leaves_allocated
        - (calculate_leave_balance e txns leaves_taken month year).txn.leaves_used ∧
    (calculate_leave_balance e txns leaves_taken month year).txn.leaves_allocated = 3 / 2 ∧
    (calculate_leave_balance e txns leaves_taken month year).employee.leave_balance
      = (calculate_leave_balance e txns leaves_taken month year).txn.balance_after := by
  refine ⟨?_, rfl, rfl⟩
  have key : ∀ cb u : ℚ, cb - u = cb - monthly_allocation + monthly_allocation - u := by
    intro cb u; ring
  exact key _ _

/-- C8: a permanent hike adds its amount to the stored monthly CTC and
sets the stored annual CTC to 12 times the new monthly CTC (5000 on 50000
gives 55000 and 660000), touching nothing else; a one-off hike entered
during single-period processing reaches the computation only through the
period's CTC input (`employee.ctc_monthly + hike_amount`): the processed
record is the one a zero-hike run on that period CTC would produce (apart
from the stored `hike_amount` provenance column), the run leaves the
stored CTC columns unchanged, and the employee row the run writes back is
independent of the one-off hike amount. -/
theorem C8_hike_semantics (e : EmployeeRec) (amount : ℚ)
    (txns : List LeaveTxn) (payrolls : List PayrollRecord)
    (inp : PayrollInput) :
    (apply_hike e amount).ctc_monthly = e.ctc_monthly + amount ∧
    (apply_hike e amount).ctc_annual = (e.ctc_monthly + amount) * 12 ∧
    (apply_hike e amount).emp_id = e.emp_id ∧
    (apply_hike e amount).pf_opted = e.pf_opted ∧
    (apply_hike e amount).leave_balance = e.leave_balance ∧
    (apply_hike
      { emp_id := "EMP1", ctc_monthly := 50000, ctc_annual := 600000,
        pf_opted := true, leave_balance := 0 } 5000).ctc_monthly = 55000 ∧
    (apply_hike
      { emp_id := "EMP1", ctc_monthly := 50000, ctc_annual := 600000,
        pf_opted := true, leave_balance := 0 } 5000).ctc_annual = 660000 ∧
    (process_individual_payroll e txns payrolls inp).employee.ctc_monthly = e.ctc_monthly ∧
    (process_individual_payroll e txns payrolls inp).employee.ctc_annual = e.ctc_annual ∧
    (process_individual_payroll e txns payrolls inp).employee.emp_id = e.emp_id ∧
    (process_individual_payroll e txns payrolls inp).employee.pf_opted = e.pf_opted ∧
    (process_individual_payroll e txns payrolls inp).employee
      = (process_individual_payroll e txns payrolls
          { inp with hike_amount := 0 }).employee ∧
    (process_individual_payroll e txns payrolls inp).record
      = { (process_individual_payroll
            { e with ctc_monthly := e.ctc_monthly + inp.hike_amount }
            txns payrolls { inp with hike_amount := 0 }).record with
          hike_amount := inp.hike_amount } := by
  refine ⟨rfl, rfl, rfl, rfl, rfl, by norm_num [apply_hike], by norm_num [apply_hike],
    rfl, rfl, rfl, rfl, rfl, ?_⟩
  simp [process_individual_payroll, calculate_leave_balance, prev_transaction,
    starting_balance]

/-! ## Upsert uniqueness -/

/-- No two rows of the payroll table share an `(emp_id, month, year)` key. -/
def keyUnique (ps : List PayrollRecord) : Prop :=
  List.Pairwise (fun a b => sameKey a b = false) ps

/-- `sameKey` unfolded to propositional equalities of the key columns. -/
theorem sameKey_iff (a b : PayrollRecord) :
    sameKey a b = true ↔ a.emp_id = b.emp_id ∧ a.month = b.month ∧ a.year = b.year := by
  simp [sameKey, Bool.and_eq_true, beq_iff_eq, and_assoc]

/-- Two rows keyed like `p` relate identically to any third row. -/
theorem sameKey_congr (p r x : PayrollRecord) (hpr : sameKey p r = true) :
    sameKey r x = sameKey p x := by
  obtain ⟨h1, h2, h3⟩ := (sameKey_iff p r).mp hpr
  simp [sameKey, h1, h2, h3]

/-- Every row of an upserted table is an old row or the upserted row. -/
theorem mem_upsertPayroll (ps : List PayrollRecord) (r x : PayrollRecord)
    (hx : x ∈ upsertPayroll ps r) : x ∈ ps ∨ x = r := by
  induction ps with
  | nil => simp [upsertPayroll] at hx; exact Or.inr hx
  | cons p ps ih =>
    by_cases h : sameKey p r
    · simp [upsertPayroll, h] at hx
      rcases hx with hx | hx
      · exact Or.inr hx
      · exact Or.inl (List.mem_cons_of_mem p hx)
    · simp only [upsertPayroll, if_neg h, List.mem_cons] at hx
      rcases hx with hx | hx
      · exact Or.inl (hx ▸ List.mem_cons_self p ps)
      · rcases ih hx with h2 | h2
        · exact Or.inl (List.mem_cons_of_mem p h2)
        · exact Or.inr h2

/-- The upserted row is in the upserted table. -/
theorem self_mem_upsertPayroll (ps : List PayrollRecord) (r : PayrollRecord) :
    r ∈ upsertPayroll ps r := by
  induction ps with
  | nil => simp [upsertPayroll]
  | cons p ps ih =>
    by_cases h : sameKey p r
    · simp [upsertPayroll, h]
    · simp only [upsertPayroll, if_neg h, List.mem_cons]
      exact Or.inr ih

/-- When some row already has the key, the upsert does not grow the table:
it overwrites in place. -/
theorem upsertPayroll_length_of_match (ps : List PayrollRecord)
    (r : PayrollRecord) (h : ∃ p ∈ ps, sameKey p r = true) :
    (upsertPayroll ps r).length = ps.length := by
  induction ps with
  | nil => simp at h
  | cons p ps ih =>
    by_cases hp : sameKey p r
    · simp [upsertPayroll, hp]
    · obtain ⟨q, hq, hqr⟩ := h
      rcases List.mem_cons.mp hq with rfl | hq2
      · exact absurd hqr (by simpa using hp)
      · simp only [upsertPayroll, if_neg hp, List.length_cons]
        rw [ih ⟨q, hq2, hqr⟩]

/-- When no row has the key, the upsert appends the new row at the end. -/
theorem upsertPayroll_of_nomatch (ps : List PayrollRecord)
    (r : PayrollRecord) (h : ∀ p ∈ ps, sameKey p r = false) :
    upsertPayroll ps r = ps ++ [r] := by
  induction ps with
  | nil => rfl
  | cons p ps ih =>
    have hp : sameKey p r = false := h p (List.mem_cons_self p ps)
    simp only [upsertPayroll, hp, Bool.false_eq_true, if_false, List.cons_append,
      List.cons.injEq, true_and]
    exact ih fun q hq => h q (List.mem_cons_of_mem p hq)

/-- Upserting preserves key uniqueness. -/
theorem keyUnique_upsertPayroll (ps : List PayrollRecord) (r : PayrollRecord)
    (h : keyUnique ps) : keyUnique (upsertPayroll ps r) := by
  induction ps with
  | nil => simp [upsertPayroll, keyUnique]
  | cons p ps ih =>
    rcases List.pairwise_cons.mp h with ⟨hp, hps⟩
    by_cases hpr : sameKey p r
    · simp only [upsertPayroll, hpr, if_true]
      refine List.pairwise_cons.mpr ⟨?_, hps⟩
      intro x hx
      rw [sameKey_congr p r x hpr]
      exact hp x hx
    · simp only [upsertPayroll, hpr, Bool.false_eq_true, if_false]
      refine List.pairwise_cons.mpr ⟨?_, ih hps⟩
      intro x hx
      rcases mem_upsertPayroll ps r x hx with h2 | h2
      · exact hp x h2
      · subst h2; simpa using hpr

/-- The length of an upserted table: unchanged when the key was present,
one longer when it was not. -/
theorem upsertPayroll_length (ps : List PayrollRecord) (r : PayrollRecord) :
    (upsertPayroll ps r).length
      = if ps.any (fun p => sameKey p r) then ps.length else ps.length + 1 := by
  induction ps with
  | nil => simp [upsertPayroll]
  | cons p ps ih =>
    by_cases hp : sameKey p r
    · simp [upsertPayroll, hp]
    · simp only [upsertPayroll, hp, Bool.false_eq_true, if_false, List.length_cons,
        List.any_cons, Bool.false_or, ih]
      by_cases ht : ps.any (fun p => sameKey p r) <;> simp [ht]

/-- Any sequence of runs preserves key uniqueness of the payroll table. -/
theorem runAll_keyUnique (inps : List PayrollInput) (e : EmployeeRec)
    (txns : List LeaveTxn) (ps : List PayrollRecord) (h : keyUnique ps) :
    keyUnique (runAll e txns ps inps).2.2 := by
  induction inps generalizing e txns ps with
  | nil => exact h
  | cons inp rest ih => exact ih _ _ _ (keyUnique_upsertPayroll ps _ h)

/-- Each run appends exactly one leave transaction to the ledger. -/
theorem runAll_txns_length (inps : List PayrollInput) (e : EmployeeRec)
    (txns : List LeaveTxn) (ps : List PayrollRecord) :
    (runAll e txns ps inps).2.1.length = txns.length + inps.length := by
  induction inps generalizing e txns ps with
  | nil => simp [runAll]
  | cons inp rest ih =>
    simp only [runAll]
    rw [ih]
    simp [process_individual_payroll]
    omega

/-- C9: processing upserts by the `(employee, month, year)` natural key —
the table keeps at most one row per key across any sequence of runs, a
run whose key is already present leaves the table size unchanged
(overwriting the matching row with the freshly computed one, which is
wholly present afterwards), a run with a new key appends one row — while
the leave ledger always gains one fresh transaction per run. -/
theorem C9_upsert_lifecycle (e : EmployeeRec) (txns : List LeaveTxn)
    (ps : List PayrollRecord) (inp : PayrollInput)
    (inps : List PayrollInput) (h : keyUnique ps) :
    (process_individual_payroll e txns ps inp).payrolls
      = upsertPayroll ps (process_individual_payroll e txns ps inp).record ∧
    (process_individual_payroll e txns ps inp).payrolls.length
      = (if ps.any (fun p => sameKey p (process_individual_payroll e txns ps inp).record)
         then ps.length else ps.length + 1) ∧
    (process_individual_payroll e txns ps inp).record
      ∈ (process_individual_payroll e txns ps inp).payrolls ∧
    (∀ x ∈ (process_individual_payroll e txns ps inp).payrolls,
      x ∈ ps ∨ x = (process_individual_payroll e txns ps inp).record) ∧
    keyUnique (process_individual_payroll e txns ps inp).payrolls ∧
    (process_individual_payroll e txns ps inp).txns
      = txns ++ [(calculate_leave_balance e txns inp.leaves_taken inp.month inp.year).txn] ∧
    keyUnique (runAll e txns ps inps).2.2 ∧
    (runAll e txns ps inps).2.1.length = txns.length + inps.length :=
  ⟨rfl, upsertPayroll_length ps _, self_mem_upsertPayroll ps _,
   mem_upsertPayroll ps _, keyUnique_upsertPayroll ps _ h, rfl,
   runAll_keyUnique inps e txns ps h, runAll_txns_length inps e txns ps⟩

/-- C9 witness: starting from an empty store, two runs for the same
`(employee, month, year)` key leave a key-unique table of exactly one row
while the ledger holds two transactions. -/
theorem C9_upsert_lifecycle_witness :
    keyUnique [] ∧
    keyUnique (runAll
       { emp_id := "EMP1", ctc_monthly := 50000, ctc_annual := 600000,
         pf_opted := true, leave_balance := 0 } [] []
       [{ leaves_taken := 0, month := "January", year := 2024, pf_opted := true,
          hike_amount := 0, deduction_amount := 0, overtime_amount := 0,
          expenses := 0, bonus := 0 },
        { leaves_taken := 0, month := "January", year := 2024, pf_opted := true,
          hike_amount := 0, deduction_amount := 0, overtime_amount := 0,
          expenses := 0, bonus := 0 }]).2.2 ∧
    (runAll
       { emp_id := "EMP1", ctc_monthly := 50000, ctc_annual := 600000,
         pf_opted := true, leave_balance := 0 } [] []
       [{ leaves_taken := 0, month := "January", year := 2024, pf_opted := true,
          hike_amount := 0, deduction_amount := 0, overtime_amount := 0,
          expenses := 0, bonus := 0 },
        { leaves_taken := 0, month := "January", year := 2024, pf_opted := true,
          hike_amount := 0, deduction_amount := 0, overtime_amount := 0,
          expenses := 0, bonus := 0 }]).2.1.length = 2 ∧
    (runAll
       { emp_id := "EMP1", ctc_monthly := 50000, ctc_annual := 600000,
         pf_opted := true, leave_balance := 0 } [] []
       [{ leaves_taken := 0, month := "January", year := 2024, pf_opted := true,
          hike_amount := 0, deduction_amount := 0, overtime_amount := 0,
          expenses := 0, bonus := 0 },
        { leaves_taken := 0, month := "January", year := 2024, pf_opted := true,
          hike_amount := 0, deduction_amount := 0, overtime_amount := 0,
          expenses := 0, bonus := 0 }]).2.2.length = 1 := by
  refine ⟨List.Pairwise.nil,
    (C9_upsert_lifecycle
      { emp_id := "EMP1", ctc_monthly := 50000, ctc_annual := 600000,
        pf_opted := true, leave_balance := 0 } [] []
      { leaves_taken := 0, month := "January", year := 2024, pf_opted := true,
        hike_amount := 0, deduction_amount := 0, overtime_amount := 0,
        expenses := 0, bonus := 0 }
      [{ leaves_taken := 0, month := "January", year := 2024, pf_opted := true,
         hike_amount := 0, deduction_amount := 0, overtime_amount := 0,
         expenses := 0, bonus := 0 },
       { leaves_taken := 0, month := "January", year := 2024, pf_opted := true,
         hike_amount := 0, deduction_amount := 0, overtime_amount := 0,
         expenses := 0, bonus := 0 }] List.Pairwise.nil).2.2.2.2.2.2.1,
    (C9_upsert_lifecycle
      { emp_id := "EMP1", ctc_monthly := 50000, ctc_annual := 600000,
        pf_opted := true, leave_balance := 0 } [] []
      { leaves_taken := 0, month := "January", year := 2024, pf_opted := true,
        hike_amount := 0, deduction_amount := 0, overtime_amount := 0,
        expenses := 0, bonus := 0 }
      [{ leaves_taken := 0, month := "January", year := 2024, pf_opted := true,
         hike_amount := 0, deduction_amount := 0, overtime_amount := 0,
         expenses := 0, bonus := 0 },
       { leaves_taken := 0, month := "January", year := 2024, pf_opted := true,
         hike_amount := 0, deduction_amount := 0, overtime_amount := 0,
         expenses := 0, bonus := 0 }] List.Pairwise.nil).2.2.2.2.2.2.2, ?_⟩
  norm_num [runAll, process_individual_payroll, calculate_leave_balance,
    prev_transaction, latestBy, upsertPayroll, sameKey, monthly_allocation]

/-- Evaluation rule for `round2` at arguments that are not a whole number
of cents: bracket `q·100 + 1/2` between `k` and `k + 1`. -/
theorem round2_eval (q : ℚ) (k : ℤ) (h1 : (k : ℚ) ≤ q * 100 + 1 / 2)
    (h2 : q * 100 + 1 / 2 < k + 1) : round2 q = (k : ℚ) / 100 := by
  unfold round2
  rw [round_eq, Int.floor_eq_iff.mpr ⟨h1, h2⟩]

/-- Evaluation rule for `pyInt` on nonnegative arguments. -/
theorem pyInt_eval (q : ℚ) (n : ℤ) (h0 : 0 ≤ q) (h1 : (n : ℚ) ≤ q)
    (h2 : q < n + 1) : pyInt q = n := by
  unfold pyInt
  rw [if_pos h0]
  exact Int.floor_eq_iff.mpr ⟨h1, h2⟩

/-! ## C1: loss-of-pay scaling and the PF base -/

/-- C1 counterexample: employee with monthly CTC 20000 (basic 10000,
PF = 1200), stored balance 0.5, taking 17 leaves — 15 unpaid days, so the
five components are halved (basic 5000), yet the stored PF stays 1200,
not `min(scaled_basic·12%, 1800) = 600`: PF is **not** recomputed off the
scaled basic. -/
theorem C1_pf_base_counterexample :
    (process_individual_payroll
        { emp_id := "EMP2", ctc_monthly := 20000, ctc_annual := 240000,
          pf_opted := true, leave_balance := 1 / 2 } [] []
        { leaves_taken := 17, month := "March", year := 2024, pf_opted := true,
          hike_amount := 0, deduction_amount := 0, overtime_amount := 0,
          expenses := 0, bonus := 0 }).record.loss_of_pay_days = 15 ∧
    (process_individual_payroll
        { emp_id := "EMP2", ctc_monthly := 20000, ctc_annual := 240000,
          pf_opted := true, leave_balance := 1 / 2 } [] []
        { leaves_taken := 17, month := "March", year := 2024, pf_opted := true,
          hike_amount := 0, deduction_amount := 0, overtime_amount := 0,
          expenses := 0, bonus := 0 }).record.basic_salary = 5000 ∧
    (process_individual_payroll
        { emp_id := "EMP2", ctc_monthly := 20000, ctc_annual := 240000,
          pf_opted := true, leave_balance := 1 / 2 } [] []
        { leaves_taken := 17, month := "March", year := 2024, pf_opted := true,
          hike_amount := 0, deduction_amount := 0, overtime_amount := 0,
          expenses := 0, bonus := 0 }).record.pf_employee = 1200 ∧
    round2 (min
      ((process_individual_payroll
          { emp_id := "EMP2", ctc_monthly := 20000, ctc_annual := 240000,
            pf_opted := true, leave_balance := 1 / 2 } [] []
          { leaves_taken := 17, month := "March", year := 2024, pf_opted := true,
            hike_amount := 0, deduction_amount := 0, overtime_amount := 0,
            expenses := 0, bonus := 0 }).record.basic_salary * (12 / 100)) 1800) = 600 ∧
    (process_individual_payroll
        { emp_id := "EMP2", ctc_monthly := 20000, ctc_annual := 240000,
          pf_opted := true, leave_balance := 1 / 2 } [] []
        { leaves_taken := 17, month := "March", year := 2024, pf_opted := true,
          hike_amount := 0, deduction_amount := 0, overtime_amount := 0,
          expenses := 0, bonus := 0 }).record.pf_employee
      ≠ round2 (min
          ((process_individual_payroll
              { emp_id := "EMP2", ctc_monthly := 20000, ctc_annual := 240000,
                pf_opted := true, leave_balance := 1 / 2 } [] []
              { leaves_taken := 17, month := "March", year := 2024, pf_opted := true,
                hike_amount := 0, deduction_amount := 0, overtime_amount := 0,
                expenses := 0, bonus := 0 }).record.basic_salary * (12 / 100)) 1800) ∧
    (process_individual_payroll
        { emp_id := "EMP2", ctc_monthly := 20000, ctc_annual := 240000,
          pf_opted := true, leave_balance := 1 / 2 } [] []
        { leaves_taken := 17, month := "March", year := 2024, pf_opted := true,
          hike_amount := 0, deduction_amount := 0, overtime_amount := 0,
          expenses := 0, bonus := 0 }).record.pf_employee
      ≠ min
          ((process_individual_payroll
              { emp_id := "EMP2", ctc_monthly := 20000, ctc_annual := 240000,
                pf_opted := true, leave_balance := 1 / 2 } [] []
              { leaves_taken := 17, month := "March", year := 2024, pf_opted := true,
                hike_amount := 0, deduction_amount := 0, overtime_amount := 0,
                expenses := 0, bonus := 0 }).record.basic_salary * (12 / 100)) 1800 := by
  norm_num [process_individual_payroll, calculate_leave_balance, prev_transaction,
    latestBy, monthly_allocation, calculate_salary_components, scaleForLossOfPay,
    round2]

/-- C1 (amended): when the settlement produces `loss_of_pay_days > 0`,
the five fixed components in the stored record are each the base
component scaled by `(1 − loss_of_pay_days/30)` and rounded to 2 decimal
places independently, while the PF deduction is carried over unchanged
from the base computation — `min(unscaled_basic·12%, 1800)` (rounded) when
PF is opted — i.e. PF is **not** recomputed off the scaled basic. -/
theorem C1_lop_scaling (e : EmployeeRec) (txns : List LeaveTxn)
    (payrolls : List PayrollRecord) (inp : PayrollInput)
    (hL : 0 < (calculate_leave_balance e txns inp.leaves_taken inp.month inp.year).info.loss_of_pay_days) :
    (process_individual_payroll e txns payrolls inp).record.loss_of_pay_days
      = (calculate_leave_balance e txns inp.leaves_taken inp.month inp.year).info.loss_of_pay_days ∧
    (process_individual_payroll e txns payrolls inp).record.basic_salary
      = round2 ((calculate_salary_components (e.ctc_monthly + inp.hike_amount) inp.pf_opted inp.deduction_amount).basic
          * (1 - (calculate_leave_balance e txns inp.leaves_taken inp.month inp.year).info.loss_of_pay_days / 30)) ∧
    (process_individual_payroll e txns payrolls inp).record.hra
      = round2 ((calculate_salary_components (e.ctc_monthly + inp.hike_amount) inp.pf_opted inp.deduction_amount).hra
          * (1 - (calculate_leave_balance e txns inp.leaves_taken inp.month inp.year).info.loss_of_pay_days / 30)) ∧
    (process_individual_payroll e txns payrolls inp).record.special_allowance
      = round2 ((calculate_salary_components (e.ctc_monthly + inp.hike_amount) inp.pf_opted inp.deduction_amount).special_allowance
          * (1 - (calculate_leave_balance e txns inp.leaves_taken inp.month inp.year).info.loss_of_pay_days / 30)) ∧
    (process_individual_payroll e txns payrolls inp).record.conveyance_allowance
      = round2 ((calculate_salary_components (e.ctc_monthly + inp.hike_amount) inp.pf_opted inp.deduction_amount).conveyance_allowance
          * (1 - (calculate_leave_balance e txns inp.leaves_taken inp.month inp.year).info.loss_of_pay_days / 30)) ∧
    (process_individual_payroll e txns payrolls inp).record.medical_allowance
      = round2 ((calculate_salary_components (e.ctc_monthly + inp.hike_amount) inp.pf_opted inp.deduction_amount).medical_allowance
          * (1 - (calculate_leave_balance e txns inp.leaves_taken inp.month inp.year).info.loss_of_pay_days / 30)) ∧
    (process_individual_payroll e txns payrolls inp).record.pf_employee
      = (calculate_salary_components (e.ctc_monthly + inp.hike_amount) inp.pf_opted inp.deduction_amount).pf_employee ∧
    (inp.pf_opted = true →
      (process_individual_payroll e txns payrolls inp).record.pf_employee
        = round2 (min ((calculate_salary_components (e.ctc_monthly + inp.hike_amount) inp.pf_opted inp.deduction_amount).basic * (12 / 100)) 1800)) := by
  refine ⟨rfl, ?_, ?_, ?_, ?_, ?_, ?_, ?_⟩
  · simp [process_individual_payroll, scaleForLossOfPay, hL]
  · simp [process_individual_payroll, scaleForLossOfPay, hL]
  · simp [process_individual_payroll, scaleForLossOfPay, hL]
  · simp [process_individual_payroll, scaleForLossOfPay, hL]
  · simp [process_individual_payroll, scaleForLossOfPay, hL]
  · simp [process_individual_payroll, scaleForLossOfPay, hL]
  · intro hp
    simp [process_individual_payroll, scaleForLossOfPay, hL,
      calculate_salary_components, hp]

/-- C1 witness at the spec's scenario: CTC = 50000, one unpaid day
(`loss_of_pay_ratio = 1/30`): basic becomes
`round2(25000·29/30) = 24166.67` while PF stays at the capped 1800. -/
theorem C1_lop_scaling_witness :
    0 < (calculate_leave_balance
          { emp_id := "EMP1", ctc_monthly := 50000, ctc_annual := 600000,
            pf_opted := true, leave_balance := 0 } [] (5 / 2) "March" 2024).info.loss_of_pay_days ∧
    (process_individual_payroll
        { emp_id := "EMP1", ctc_monthly := 50000, ctc_annual := 600000,
          pf_opted := true, leave_balance := 0 } [] []
        { leaves_taken := 5 / 2, month := "March", year := 2024, pf_opted := true,
          hike_amount := 0, deduction_amount := 0, overtime_amount := 0,
          expenses := 0, bonus := 0 }).record.basic_salary
      = round2 ((calculate_salary_components (50000 + 0) true 0).basic
          * (1 - (calculate_leave_balance
              { emp_id := "EMP1", ctc_monthly := 50000, ctc_annual := 600000,
                pf_opted := true, leave_balance := 0 } [] (5 / 2) "March" 2024).info.loss_of_pay_days / 30)) ∧
    (process_individual_payroll
        { emp_id := "EMP1", ctc_monthly := 50000, ctc_annual := 600000,
          pf_opted := true, leave_balance := 0 } [] []
        { leaves_taken := 5 / 2, month := "March", year := 2024, pf_opted := true,
          hike_amount := 0, deduction_amount := 0, overtime_amount := 0,
          expenses := 0, bonus := 0 }).record.basic_salary = 2416667 / 100 ∧
    (process_individual_payroll
        { emp_id := "EMP1", ctc_monthly := 50000, ctc_annual := 600000,
          pf_opted := true, leave_balance := 0 } [] []
        { leaves_taken := 5 / 2, month := "March", year := 2024, pf_opted := true,
          hike_amount := 0, deduction_amount := 0, overtime_amount := 0,
          expenses := 0, bonus := 0 }).record.pf_employee = 1800 := by
  have hL : 0 < (calculate_leave_balance
      { emp_id := "EMP1", ctc_monthly := 50000, ctc_annual := 600000,
        pf_opted := true, leave_balance := 0 } [] (5 / 2) "March" 2024).info.loss_of_pay_days := by
    norm_num [calculate_leave_balance, prev_transaction, latestBy, monthly_allocation]
  have happ := C1_lop_scaling
    { emp_id := "EMP1", ctc_monthly := 50000, ctc_annual := 600000,
      pf_opted := true, leave_balance := 0 } [] []
    { leaves_taken := 5 / 2, month := "March", year := 2024, pf_opted := true,
      hike_amount := 0, deduction_amount := 0, overtime_amount := 0,
      expenses := 0, bonus := 0 } hL
  refine ⟨hL, happ.2.1, ?_, ?_⟩
  · rw [show (process_individual_payroll
        { emp_id := "EMP1", ctc_monthly := 50000, ctc_annual := 600000,
          pf_opted := true, leave_balance := 0 } [] []
        { leaves_taken := 5 / 2, month := "March", year := 2024, pf_opted := true,
          hike_amount := 0, deduction_amount := 0, overtime_amount := 0,
          expenses := 0, bonus := 0 }).record.basic_salary
      = round2 ((calculate_salary_components (50000 + 0) true 0).basic
          * (1 - (calculate_leave_balance
              { emp_id := "EMP1", ctc_monthly := 50000, ctc_annual := 600000,
                pf_opted := true, leave_balance := 0 } [] (5 / 2) "March" 2024).info.loss_of_pay_days / 30))
      from happ.2.1]
    rw [show (calculate_leave_balance
        { emp_id := "EMP1", ctc_monthly := 50000, ctc_annual := 600000,
          pf_opted := true, leave_balance := 0 } [] (5 / 2) "March" 2024).info.loss_of_pay_days = 1
      from by norm_num [calculate_leave_balance, prev_transaction, latestBy, monthly_allocation]]
    rw [show (calculate_salary_components (50000 + 0) true 0).basic = 25000
      from by norm_num [calculate_salary_components, round2]]
    rw [show (25000 : ℚ) * (1 - 1 / 30) = 72500 / 3 by norm_num]
    rw [round2_eval (72500 / 3) 2416667 (by norm_num) (by norm_num)]
    norm_num
  · rw [show (process_individual_payroll
        { emp_id := "EMP1", ctc_monthly := 50000, ctc_annual := 600000,
          pf_opted := true, leave_balance := 0 } [] []
        { leaves_taken := 5 / 2, month := "March", year := 2024, pf_opted := true,
          hike_amount := 0, deduction_amount := 0, overtime_amount := 0,
          expenses := 0, bonus := 0 }).record.pf_employee
      = (calculate_salary_components (50000 + 0) true 0).pf_employee
      from happ.2.2.2.2.2.2.1]
    norm_num [calculate_salary_components, round2]

/-- `pyInt` is the identity on whole numbers. -/
theorem pyInt_intCast (k : ℤ) : pyInt (k : ℚ) = k := by
  unfold pyInt
  by_cases h : (0 : ℚ) ≤ (k : ℚ)
  · rw [if_pos h, Int.floor_intCast]
  · rw [if_neg h, Int.ceil_intCast]

/-! ## C4: attendance identities in the stored record -/

/-- C4 counterexample: the stored `present_days`/`paid_days` columns are
`Integer` and the Python code truncates with `int(...)`, so with a
fractional half day the identities fail: `leaves_taken = 0.5` stores
`present_days = 29` (`29 + 0.5 ≠ 30`), and a settlement with
`loss_of_pay_days = 0.5` stores `paid_days = 29 ≠ 30 − 0.5`. -/
theorem C4_attendance_counterexample :
    (process_individual_payroll
        { emp_id := "EMP3", ctc_monthly := 30000, ctc_annual := 360000,
          pf_opted := true, leave_balance := 0 } [] []
        { leaves_taken := 1 / 2, month := "April", year := 2024, pf_opted := true,
          hike_amount := 0, deduction_amount := 0, overtime_amount := 0,
          expenses := 0, bonus := 0 }).record.total_days = 30 ∧
    (process_individual_payroll
        { emp_id := "EMP3", ctc_monthly := 30000, ctc_annual := 360000,
          pf_opted := true, leave_balance := 0 } [] []
        { leaves_taken := 1 / 2, month := "April", year := 2024, pf_opted := true,
          hike_amount := 0, deduction_amount := 0, overtime_amount := 0,
          expenses := 0, bonus := 0 }).record.leaves_taken = 1 / 2 ∧
    (process_individual_payroll
        { emp_id := "EMP3", ctc_monthly := 30000, ctc_annual := 360000,
          pf_opted := true, leave_balance := 0 } [] []
        { leaves_taken := 1 / 2, month := "April", year := 2024, pf_opted := true,
          hike_amount := 0, deduction_amount := 0, overtime_amount := 0,
          expenses := 0, bonus := 0 }).record.present_days = 29 ∧
    ¬(((process_individual_payroll
        { emp_id := "EMP3", ctc_monthly := 30000, ctc_annual := 360000,
          pf_opted := true, leave_balance := 0 } [] []
        { leaves_taken := 1 / 2, month := "April", year := 2024, pf_opted := true,
          hike_amount := 0, deduction_amount := 0, overtime_amount := 0,
          expenses := 0, bonus := 0 }).record.present_days : ℚ)
      + (process_individual_payroll
          { emp_id := "EMP3", ctc_monthly := 30000, ctc_annual := 360000,
            pf_opted := true, leave_balance := 0 } [] []
          { leaves_taken := 1 / 2, month := "April", year := 2024, pf_opted := true,
            hike_amount := 0, deduction_amount := 0, overtime_amount := 0,
            expenses := 0, bonus := 0 }).record.leaves_taken
      = ((process_individual_payroll
          { emp_id := "EMP3", ctc_monthly := 30000, ctc_annual := 360000,
            pf_opted := true, leave_balance := 0 } [] []
          { leaves_taken := 1 / 2, month := "April", year := 2024, pf_opted := true,
            hike_amount := 0, deduction_amount := 0, overtime_amount := 0,
            expenses := 0, bonus := 0 }).record.total_days : ℚ)) ∧
    (process_individual_payroll
        { emp_id := "EMP4", ctc_monthly := 30000, ctc_annual := 360000,
          pf_opted := true, leave_balance := 0 } [] []
        { leaves_taken := 2, month := "April", year := 2024, pf_opted := true,
          hike_amount := 0, deduction_amount := 0, overtime_amount := 0,
          expenses := 0, bonus := 0 }).record.loss_of_pay_days = 1 / 2 ∧
    (process_individual_payroll
        { emp_id := "EMP4", ctc_monthly := 30000, ctc_annual := 360000,
          pf_opted := true, leave_balance := 0 } [] []
        { leaves_taken := 2, month := "April", year := 2024, pf_opted := true,
          hike_amount := 0, deduction_amount := 0, overtime_amount := 0,
          expenses := 0, bonus := 0 }).record.paid_days = 29 ∧
    ¬(((process_individual_payroll
        { emp_id := "EMP4", ctc_monthly := 30000, ctc_annual := 360000,
          pf_opted := true, leave_balance := 0 } [] []
        { leaves_taken := 2, month := "April", year := 2024, pf_opted := true,
          hike_amount := 0, deduction_amount := 0, overtime_amount := 0,
          expenses := 0, bonus := 0 }).record.paid_days : ℚ)
      = ((process_individual_payroll
          { emp_id := "EMP4", ctc_monthly := 30000, ctc_annual := 360000,
            pf_opted := true, leave_balance := 0 } [] []
          { leaves_taken := 2, month := "April", year := 2024, pf_opted := true,
            hike_amount := 0, deduction_amount := 0, overtime_amount := 0,
            expenses := 0, bonus := 0 }).record.total_days : ℚ)
        - (process_individual_payroll
            { emp_id := "EMP4", ctc_monthly := 30000, ctc_annual := 360000,
              pf_opted := true, leave_balance := 0 } [] []
            { leaves_taken := 2, month := "April", year := 2024, pf_opted := true,
              hike_amount := 0, deduction_amount := 0, overtime_amount := 0,
              expenses := 0, bonus := 0 }).record.loss_of_pay_days) := by
  have hpres : (process_individual_payroll
      { emp_id := "EMP3", ctc_monthly := 30000, ctc_annual := 360000,
        pf_opted := true, leave_balance := 0 } [] []
      { leaves_taken := 1 / 2, month := "April", year := 2024, pf_opted := true,
        hike_amount := 0, deduction_amount := 0, overtime_amount := 0,
        expenses := 0, bonus := 0 }).record.present_days = 29 := by
    show pyInt ((calculate_leave_balance
      { emp_id := "EMP3", ctc_monthly := 30000, ctc_annual := 360000,
        pf_opted := true, leave_balance := 0 } [] (1 / 2) "April" 2024).info.present_days) = 29
    rw [show (calculate_leave_balance
        { emp_id := "EMP3", ctc_monthly := 30000, ctc_annual := 360000,
          pf_opted := true, leave_balance := 0 } [] (1 / 2) "April" 2024).info.present_days = 59 / 2
      from by norm_num [calculate_leave_balance, prev_transaction, latestBy, monthly_allocation]]
    exact pyInt_eval _ 29 (by norm_num) (by norm_num) (by norm_num)
  have hpaid : (process_individual_payroll
      { emp_id := "EMP4", ctc_monthly := 30000, ctc_annual := 360000,
        pf_opted := true, leave_balance := 0 } [] []
      { leaves_taken := 2, month := "April", year := 2024, pf_opted := true,
        hike_amount := 0, deduction_amount := 0, overtime_amount := 0,
        expenses := 0, bonus := 0 }).record.paid_days = 29 := by
    show pyInt ((calculate_leave_balance
      { emp_id := "EMP4", ctc_monthly := 30000, ctc_annual := 360000,
        pf_opted := true, leave_balance := 0 } [] 2 "April" 2024).info.paid_days) = 29
    rw [show (calculate_leave_balance
        { emp_id := "EMP4", ctc_monthly := 30000, ctc_annual := 360000,
          pf_opted := true, leave_balance := 0 } [] 2 "April" 2024).info.paid_days = 59 / 2
      from by norm_num [calculate_leave_balance, prev_transaction, latestBy, monthly_allocation]]
    exact pyInt_eval _ 29 (by norm_num) (by norm_num) (by norm_num)
  refine ⟨rfl, rfl, hpres, ?_, ?_, hpaid, ?_⟩
  · rw [hpres]
    show ¬((29 : ℤ) : ℚ) + (1 / 2 : ℚ) = ((30 : ℤ) : ℚ)
    norm_num
  · show max 0 (2 - (0 + monthly_allocation)) = 1 / 2
    norm_num [monthly_allocation]
  · rw [hpaid]
    show ¬((29 : ℤ) : ℚ) = ((30 : ℤ) : ℚ) - max 0 (2 - (0 + monthly_allocation))
    norm_num [monthly_allocation]

/-- C4 (amended): the stored record always has `total_days = 30` and
stores `present_days = int(30 − leaves_taken)` and
`paid_days = int(30 − loss_of_pay_days)` (Python truncation into the
`Integer` columns); the identities `present_days + leaves_taken = 30` and
`paid_days = 30 − loss_of_pay_days` hold exactly whenever `leaves_taken`
and `loss_of_pay_days` are whole numbers of days, and only then. -/
theorem C4_attendance_amended (e : EmployeeRec) (txns : List LeaveTxn)
    (payrolls : List PayrollRecord) (inp : PayrollInput) (n m : ℤ)
    (hn : inp.leaves_taken = (n : ℚ))
    (hm : (calculate_leave_balance e txns inp.leaves_taken inp.month inp.year).info.loss_of_pay_days = (m : ℚ)) :
    (process_individual_payroll e txns payrolls inp).record.total_days = 30 ∧
    (process_individual_payroll e txns payrolls inp).record.present_days
      = pyInt (30 - inp.leaves_taken) ∧
    (process_individual_payroll e txns payrolls inp).record.paid_days
      = pyInt (30 - (calculate_leave_balance e txns inp.leaves_taken inp.month inp.year).info.loss_of_pay_days) ∧
    ((process_individual_payroll e txns payrolls inp).record.present_days : ℚ)
      + (process_individual_payroll e txns payrolls inp).record.leaves_taken
      = ((process_individual_payroll e txns payrolls inp).record.total_days : ℚ) ∧
    ((process_individual_payroll e txns payrolls inp).record.paid_days : ℚ)
      = ((process_individual_payroll e txns payrolls inp).record.total_days : ℚ)
        - (process_individual_payroll e txns payrolls inp).record.loss_of_pay_days := by
  have hpres : (process_individual_payroll e txns payrolls inp).record.present_days = 30 - n := by
    show pyInt (30 - inp.leaves_taken) = 30 - n
    rw [hn, show (30 : ℚ) - (n : ℚ) = ((30 - n : ℤ) : ℚ) by push_cast; ring, pyInt_intCast]
  have hpaid : (process_individual_payroll e txns payrolls inp).record.paid_days = 30 - m := by
    show pyInt (30 - (calculate_leave_balance e txns inp.leaves_taken inp.month inp.year).info.loss_of_pay_days) = 30 - m
    rw [hm, show (30 : ℚ) - (m : ℚ) = ((30 - m : ℤ) : ℚ) by push_cast; ring, pyInt_intCast]
  refine ⟨rfl, rfl, rfl, ?_, ?_⟩
  · rw [hpres]
    show ((30 - n : ℤ) : ℚ) + inp.leaves_taken = ((30 : ℤ) : ℚ)
    rw [hn]; push_cast; ring
  · rw [hpaid]
    show ((30 - m : ℤ) : ℚ) = ((30 : ℤ) : ℚ)
      - (calculate_leave_balance e txns inp.leaves_taken inp.month inp.year).info.loss_of_pay_days
    rw [hm]; push_cast; ring

/-- C4 witness: whole-day input (2 leaves against a balance of 10, so no
loss of pay): the stored attendance satisfies both identities. -/
theorem C4_attendance_amended_witness :
    ({ leaves_taken := 2, month := "April", year := 2024, pf_opted := true,
       hike_amount := 0, deduction_amount := 0, overtime_amount := 0,
       expenses := 0, bonus := 0 } : PayrollInput).leaves_taken = ((2 : ℤ) : ℚ) ∧
    (calculate_leave_balance
        { emp_id := "EMP5", ctc_monthly := 30000, ctc_annual := 360000,
          pf_opted := true, leave_balance := 10 } [] 2 "April" 2024).info.loss_of_pay_days
      = ((0 : ℤ) : ℚ) ∧
    ((process_individual_payroll
        { emp_id := "EMP5", ctc_monthly := 30000, ctc_annual := 360000,
          pf_opted := true, leave_balance := 10 } [] []
        { leaves_taken := 2, month := "April", year := 2024, pf_opted := true,
          hike_amount := 0, deduction_amount := 0, overtime_amount := 0,
          expenses := 0, bonus := 0 }).record.present_days : ℚ)
      + (process_individual_payroll
          { emp_id := "EMP5", ctc_monthly := 30000, ctc_annual := 360000,
            pf_opted := true, leave_balance := 10 } [] []
          { leaves_taken := 2, month := "April", year := 2024, pf_opted := true,
            hike_amount := 0, deduction_amount := 0, overtime_amount := 0,
            expenses := 0, bonus := 0 }).record.leaves_taken
      = ((process_individual_payroll
          { emp_id := "EMP5", ctc_monthly := 30000, ctc_annual := 360000,
            pf_opted := true, leave_balance := 10 } [] []
          { leaves_taken := 2, month := "April", year := 2024, pf_opted := true,
            hike_amount := 0, deduction_amount := 0, overtime_amount := 0,
            expenses := 0, bonus := 0 }).record.total_days : ℚ) ∧
    ((process_individual_payroll
        { emp_id := "EMP5", ctc_monthly := 30000, ctc_annual := 360000,
          pf_opted := true, leave_balance := 10 } [] []
        { leaves_taken := 2, month := "April", year := 2024, pf_opted := true,
          hike_amount := 0, deduction_amount := 0, overtime_amount := 0,
          expenses := 0, bonus := 0 }).record.paid_days : ℚ)
      = ((process_individual_payroll
          { emp_id := "EMP5", ctc_monthly := 30000, ctc_annual := 360000,
            pf_opted := true, leave_balance := 10 } [] []
          { leaves_taken := 2, month := "April", year := 2024, pf_opted := true,
            hike_amount := 0, deduction_amount := 0, overtime_amount := 0,
            expenses := 0, bonus := 0 }).record.total_days : ℚ)
        - (process_individual_payroll
            { emp_id := "EMP5", ctc_monthly := 30000, ctc_annual := 360000,
              pf_opted := true, leave_balance := 10 } [] []
            { leaves_taken := 2, month := "April", year := 2024, pf_opted := true,
              hike_amount := 0, deduction_amount := 0, overtime_amount := 0,
              expenses := 0, bonus := 0 }).record.loss_of_pay_days := by
  have hn : ({ leaves_taken := 2, month := "April", year := 2024, pf_opted := true,
               hike_amount := 0, deduction_amount := 0, overtime_amount := 0,
               expenses := 0, bonus := 0 } : PayrollInput).leaves_taken = ((2 : ℤ) : ℚ) := by
    norm_num
  have hm : (calculate_leave_balance
      { emp_id := "EMP5", ctc_monthly := 30000, ctc_annual := 360000,
        pf_opted := true, leave_balance := 10 } [] 2 "April" 2024).info.loss_of_pay_days
      = ((0 : ℤ) : ℚ) := by
    norm_num [calculate_leave_balance, prev_transaction, latestBy, monthly_allocation]
  have happ := C4_attendance_amended
    { emp_id := "EMP5", ctc_monthly := 30000, ctc_annual := 360000,
      pf_opted := true, leave_balance := 10 } [] []
    { leaves_taken := 2, month := "April", year := 2024, pf_opted := true,
      hike_amount := 0, deduction_amount := 0, overtime_amount := 0,
      expenses := 0, bonus := 0 } 2 0 hn hm
  exact ⟨hn, hm, happ.2.2.2.1, happ.2.2.2.2⟩

/-! ## C3: which transaction the settlement starts from -/

/-- A row picked by `latestBy` comes from the list. -/
theorem latestBy_mem (later : LeaveTxn → LeaveTxn → Bool)
    (l : List LeaveTxn) (u : LeaveTxn) (h : latestBy later l = some u) :
    u ∈ l := by
  induction l with
  | nil => simp [latestBy] at h
  | cons t ts ih =>
    rw [latestBy] at h
    rcases he : latestBy later ts with _ | v
    · rw [he] at h
      have h2 : some t = some u := h
      exact (Option.some.inj h2) ▸ List.mem_cons_self t ts
    · rw [he] at h
      have h2 : (if later v t = true then some v else some t) = some u := h
      by_cases hv : later v t = true
      · rw [if_pos hv] at h2
        have hvu : v = u := Option.some.inj h2
        exact List.mem_cons_of_mem t (ih (hvu ▸ he))
      · rw [if_neg hv] at h2
        exact (Option.some.inj h2) ▸ List.mem_cons_self t ts

/-- Two strict orders that agree on every pair of the list pick the same
first row. -/
theorem latestBy_congr (f g : LeaveTxn → LeaveTxn → Bool)
    (l : List LeaveTxn)
    (h : List.Pairwise (fun a b => f b a = g b a) l) :
    latestBy f l = latestBy g l := by
  induction l with
  | nil => rfl
  | cons t ts ih =>
    rcases List.pairwise_cons.mp h with ⟨ht, hts⟩
    rw [latestBy, latestBy, ih hts]
    rcases he : latestBy g ts with _ | u
    · rfl
    · show (if f u t = true then some u else some t)
        = (if g u t = true then some u else some t)
      rw [ht u (latestBy_mem g ts u he)]

/-- On rows from different years the stored (string) ordering and the
calendar ordering agree: both compare the years. -/
theorem lexLater_eq_chronoLater_of_year_ne (a b : LeaveTxn)
    (h : a.year ≠ b.year) : lexLater a b = chronoLater a b := by
  unfold lexLater chronoLater
  have hb : (a.year == b.year) = false := by simp [h]
  rw [hb]
  simp

/-- C3 counterexample: an employee with two 2024 transactions, January
(`balance_after = 1`) then February (`balance_after = 2`).  February is
the chronologically most recent row, but `ORDER BY year DESC, month DESC`
on the string column sorts `"January" > "February"`, so the settlement
starts from January's closing balance 1, not 2. -/
theorem C3_month_order_counterexample :
    latestBy chronoLater
      [{ emp_id := "EMP1", month := "January", year := 2024, leaves_allocated := 3 / 2,
         leaves_used := 0, balance_before := 0, balance_after := 1 },
       { emp_id := "EMP1", month := "February", year := 2024, leaves_allocated := 3 / 2,
         leaves_used := 0, balance_before := 0, balance_after := 2 }]
      = some { emp_id := "EMP1", month := "February", year := 2024, leaves_allocated := 3 / 2,
               leaves_used := 0, balance_before := 0, balance_after := 2 } ∧
    starting_balance
      { emp_id := "EMP1", ctc_monthly := 50000, ctc_annual := 600000,
        pf_opted := true, leave_balance := 7 }
      [{ emp_id := "EMP1", month := "January", year := 2024, leaves_allocated := 3 / 2,
         leaves_used := 0, balance_before := 0, balance_after := 1 },
       { emp_id := "EMP1", month := "February", year := 2024, leaves_allocated := 3 / 2,
         leaves_used := 0, balance_before := 0, balance_after := 2 }] = 1 ∧
    starting_balance
      { emp_id := "EMP1", ctc_monthly := 50000, ctc_annual := 600000,
        pf_opted := true, leave_balance := 7 }
      [{ emp_id := "EMP1", month := "January", year := 2024, leaves_allocated := 3 / 2,
         leaves_used := 0, balance_before := 0, balance_after := 1 },
       { emp_id := "EMP1", month := "February", year := 2024, leaves_allocated := 3 / 2,
         leaves_used := 0, balance_before := 0, balance_after := 2 }]
      ≠ ({ emp_id := "EMP1", month := "February", year := 2024, leaves_allocated := 3 / 2,
           leaves_used := 0, balance_before := 0, balance_after := 2 } : LeaveTxn).balance_after := by
  have hmJ : monthIndex "January" = 1 := by decide
  have hmF : monthIndex "February" = 2 := by decide
  have hsJF : strLtB "January" "February" = false := by decide
  refine ⟨?_, ?_, ?_⟩
  · simp [latestBy, chronoLater, hmJ, hmF]
  · simp [starting_balance, prev_transaction, latestBy, lexLater, hsJF, List.filter]
  · simp [starting_balance, prev_transaction, latestBy, lexLater, hsJF, List.filter]

/-- C3 (amended): the settlement starts from the `balance_after` of the
transaction the query `ORDER BY year DESC, month DESC` puts first — the
row maximal by year and then by the **string** ordering of the stored
month name, which is the chronologically most recent row whenever the
employee's transactions all lie in distinct years (the string ordering of
month names inside one year is not calendar order); with no transactions
the employee's stored `leave_balance` is used. -/
theorem C3_starting_balance (e : EmployeeRec) (txns : List LeaveTxn)
    (hy : List.Pairwise (fun a b => a.year ≠ b.year)
      (txns.filter (fun t => t.emp_id == e.emp_id))) :
    starting_balance e txns
      = (match latestBy chronoLater (txns.filter (fun t => t.emp_id == e.emp_id)) with
         | some t => t.balance_after
         | none => e.leave_balance) ∧
    (txns.filter (fun t => t.emp_id == e.emp_id) = [] →
      starting_balance e txns = e.leave_balance) := by
  have key : latestBy lexLater (txns.filter (fun t => t.emp_id == e.emp_id))
      = latestBy chronoLater (txns.filter (fun t => t.emp_id == e.emp_id)) := by
    refine latestBy_congr lexLater chronoLater _ (hy.imp ?_)
    intro a b hab
    exact lexLater_eq_chronoLater_of_year_ne _ _ (Ne.symm hab)
  constructor
  · show (match latestBy lexLater (txns.filter (fun t => t.emp_id == e.emp_id)) with
          | some t => t.balance_after
          | none => e.leave_balance) = _
    rw [key]
  · intro h0
    show (match latestBy lexLater (txns.filter (fun t => t.emp_id == e.emp_id)) with
          | some t => t.balance_after
          | none => e.leave_balance) = e.leave_balance
    rw [h0]
    rfl

/-- C3 witness: transactions in two distinct years (December 2023 closing
at 4, January 2024 closing at 5): the settlement starts from the 2024
row's closing balance, the chronologically most recent one. -/
theorem C3_starting_balance_witness :
    List.Pairwise (fun a b => a.year ≠ b.year)
      (List.filter (fun t : LeaveTxn => t.emp_id == "EMP1")
        [{ emp_id := "EMP1", month := "December", year := 2023, leaves_allocated := 3 / 2,
           leaves_used := 0, balance_before := 0, balance_after := 4 },
         { emp_id := "EMP1", month := "January", year := 2024, leaves_allocated := 3 / 2,
           leaves_used := 0, balance_before := 0, balance_after := 5 }]) ∧
    starting_balance
      { emp_id := "EMP1", ctc_monthly := 50000, ctc_annual := 600000,
        pf_opted := true, leave_balance := 7 }
      [{ emp_id := "EMP1", month := "December", year := 2023, leaves_allocated := 3 / 2,
         leaves_used := 0, balance_before := 0, balance_after := 4 },
       { emp_id := "EMP1", month := "January", year := 2024, leaves_allocated := 3 / 2,
         leaves_used := 0, balance_before := 0, balance_after := 5 }]
      = (match latestBy chronoLater
          (List.filter (fun t : LeaveTxn => t.emp_id == "EMP1")
            [{ emp_id := "EMP1", month := "December", year := 2023, leaves_allocated := 3 / 2,
               leaves_used := 0, balance_before := 0, balance_after := 4 },
             { emp_id := "EMP1", month := "January", year := 2024, leaves_allocated := 3 / 2,
               leaves_used := 0, balance_before := 0, balance_after := 5 }]) with
         | some t => t.balance_after
         | none => (7 : ℚ)) ∧
    starting_balance
      { emp_id := "EMP1", ctc_monthly := 50000, ctc_annual := 600000,
        pf_opted := true, leave_balance := 7 }
      [{ emp_id := "EMP1", month := "December", year := 2023, leaves_allocated := 3 / 2,
         leaves_used := 0, balance_before := 0, balance_after := 4 },
       { emp_id := "EMP1", month := "January", year := 2024, leaves_allocated := 3 / 2,
         leaves_used := 0, balance_before := 0, balance_after := 5 }] = 5 := by
  have hy : List.Pairwise (fun a b => a.year ≠ b.year)
      (List.filter (fun t : LeaveTxn => t.emp_id == "EMP1")
        [({ emp_id := "EMP1", month := "December", year := 2023, leaves_allocated := 3 / 2,
            leaves_used := 0, balance_before := 0, balance_after := 4 } : LeaveTxn),
         { emp_id := "EMP1", month := "January", year := 2024, leaves_allocated := 3 / 2,
           leaves_used := 0, balance_before := 0, balance_after := 5 }]) := by
    simp [List.filter]
  refine ⟨hy, ?_, ?_⟩
  · exact (C3_starting_balance
      { emp_id := "EMP1", ctc_monthly := 50000, ctc_annual := 600000,
        pf_opted := true, leave_balance := 7 }
      [{ emp_id := "EMP1", month := "December", year := 2023, leaves_allocated := 3 / 2,
         leaves_used := 0, balance_before := 0, balance_after := 4 },
       { emp_id := "EMP1", month := "January", year := 2024, leaves_allocated := 3 / 2,
         leaves_used := 0, balance_before := 0, balance_after := 5 }] hy).1
  · simp [starting_balance, prev_transaction, latestBy, lexLater, List.filter]

end PayrollPro
